import Mathlib

/-!
Verification of the weather-app core (cache layer in `utils.py`, forecast and
alert-attribution pipeline in `services/weather_service.py`) against its
natural-language specification.

The Python source is shallowly embedded: machine floats become exact rationals
(`ℚ`), Python `None` becomes `Option`, Python dicts become association lists,
and the transcendental operations the geometry/wind-chill code performs
(`v ** 0.16`, `math.hypot`, and the equirectangular projection built from
`math.radians`/`math.cos`) are abstracted as explicit function parameters,
since the claims under verification hold for every value of those functions.
Names follow the Python source (leading underscores dropped).
-/

set_option maxRecDepth 8000

namespace WeatherApp

/-- Python's builtin `round` to an integer: round half to even. -/
def pyRound (q : ℚ) : ℤ :=
  let f := ⌊q⌋
  let r := q - (f : ℚ)
  if r < 1/2 then f
  else if 1/2 < r then f + 1
  else if f % 2 = 0 then f else f + 1

/-- Python whitespace, as stripped by `str.strip` (ASCII range). -/
def isPySpace (c : Char) : Bool :=
  (c == ' ') || (c == '\t') || (c == '\n') || (c == '\x0d') || (c == '\x0b') || (c == '\x0c')

/-- Python `str.strip` (ASCII whitespace). -/
def pyStrip (s : String) : String :=
  ⟨((s.data.dropWhile isPySpace).reverse.dropWhile isPySpace).reverse⟩

/-- Python `str.lower`, restricted to ASCII letters (the only case the
severity strings exercise). -/
def pyLowerChar (c : Char) : Char :=
  if 'A' ≤ c ∧ c ≤ 'Z' then Char.ofNat (c.toNat + 32) else c

/-- Python `str.lower` over the string's characters. -/
def pyLower (s : String) : String :=
  ⟨s.data.map pyLowerChar⟩

/-- The four recognized severity slugs from `_severity_slug`. -/
def recognizedSlugs : List String := ["minor", "moderate", "severe", "extreme"]

/-- Embeds `_severity_slug` (weather_service.py lines 497-503). `value` is
`None` or a string; Python's `if not value` also catches the empty string. -/
def severity_slug (value : Option String) : String :=
  match value with
  | none => "minor"
  | some v =>
    if v = "" then "minor"
    else
      let lowered := pyLower (pyStrip v)
      if lowered ∈ recognizedSlugs then lowered else "minor"

/-- Embeds `_to_fahrenheit` (weather_service.py lines 689-692). -/
def to_fahrenheit (temp : ℚ) (unit : String) : ℚ :=
  if unit = "C" then temp * 9 / 5 + 32 else temp

/-- Embeds `_from_fahrenheit` (weather_service.py lines 695-698). -/
def from_fahrenheit (temp : ℚ) (unit : String) : ℚ :=
  if unit = "C" then (temp - 32) * 5 / 9 else temp

/-- The NWS heat-index polynomial from `_calculate_feels_like`
(weather_service.py lines 766-778), with the decimal float literals read as
exact rationals. -/
def heat_index_f (t r : ℚ) : ℚ :=
  -42379/1000
    + 204901523/100000000 * t
    + 1014333127/100000000 * r
    - 22475541/100000000 * t * r
    - 683783/100000000 * t * t
    - 5481717/100000000 * r * r
    + 122874/100000000 * t * t * r
    + 85282/100000000 * t * r * r
    - 199/100000000 * t * t * r * r

/-- The NWS wind-chill formula from `_calculate_feels_like`
(weather_service.py line 782). `pow016 v` abstracts the float power
`v ** 0.16`. -/
def wind_chill_f (pow016 : ℚ → ℚ) (t v : ℚ) : ℚ :=
  3574/100 + 6215/10000 * t - 3575/100 * pow016 v + 4275/10000 * t * pow016 v

/-- Embeds `_calculate_feels_like` (weather_service.py lines 759-785).
Mirrors the Python guard structure: the heat-index branch requires humidity
present, `temp_f >= 80` and `humidity >= 40`; the `elif` wind-chill branch
requires wind present, `temp_f <= 50` and `wind >= 3`; otherwise the felt
temperature is the actual temperature. The result is converted back to the
display unit and rounded with Python `round`. -/
def calculate_feels_like (pow016 : ℚ → ℚ) (temp : Option ℚ) (unit : String)
    (humidity windMph : Option ℚ) : Option ℤ :=
  match temp with
  | none => none
  | some tv =>
    let tempF := to_fahrenheit tv unit
    let chill : ℚ :=
      match windMph with
      | some w => if tempF ≤ 50 ∧ 3 ≤ w then wind_chill_f pow016 tempF w else tempF
      | none => tempF
    let feelsF : ℚ :=
      match humidity with
      | some h => if 80 ≤ tempF ∧ 40 ≤ h then heat_index_f tempF h else chill
      | none => chill
    some (pyRound (from_fahrenheit feelsF unit))

/-- Converting to Fahrenheit and back is exact over `ℚ`. -/
theorem from_to_fahrenheit (t : ℚ) (unit : String) :
    from_fahrenheit (to_fahrenheit t unit) unit = t := by
  unfold to_fahrenheit from_fahrenheit
  by_cases h : unit = "C" <;> simp [h]

/-- C5: for every temperature/humidity/wind input to `_calculate_feels_like`
(and every value of the abstracted float power `v ** 0.16`): when the
temperature in °F is ≥ 80 and humidity is ≥ 40 (both present), the heat-index
polynomial is applied — in particular the branch activates at exactly 80 °F
and 40 % humidity; when the temperature in °F is ≤ 50 and wind ≥ 3 mph (wind
present), the wind-chill formula is applied; otherwise the felt temperature
equals the actual temperature. The result is rounded to the nearest integer
in the original display unit. -/
theorem feels_like_branches (pow016 : ℚ → ℚ) (t : ℚ) (unit : String)
    (humidity windMph : Option ℚ) :
    (∀ h, humidity = some h → 80 ≤ to_fahrenheit t unit → 40 ≤ h →
      calculate_feels_like pow016 (some t) unit humidity windMph =
        some (pyRound (from_fahrenheit (heat_index_f (to_fahrenheit t unit) h) unit))) ∧
    (∀ w, windMph = some w → to_fahrenheit t unit ≤ 50 → 3 ≤ w →
      calculate_feels_like pow016 (some t) unit humidity windMph =
        some (pyRound (from_fahrenheit
          (wind_chill_f pow016 (to_fahrenheit t unit) w) unit))) ∧
    ((¬ ∃ h, humidity = some h ∧ 80 ≤ to_fahrenheit t unit ∧ 40 ≤ h) →
     (¬ ∃ w, windMph = some w ∧ to_fahrenheit t unit ≤ 50 ∧ 3 ≤ w) →
      calculate_feels_like pow016 (some t) unit humidity windMph =
        some (pyRound t)) := by
  refine ⟨?_, ?_, ?_⟩
  · intro h hh htemp hhum
    subst hh
    simp only [calculate_feels_like]
    rw [if_pos ⟨htemp, hhum⟩]
  · intro w hw hle hge
    subst hw
    cases humidity with
    | none =>
      simp only [calculate_feels_like]
      rw [if_pos ⟨hle, hge⟩]
    | some h =>
      have hno : ¬ (80 ≤ to_fahrenheit t unit ∧ 40 ≤ h) := by
        intro hcon
        exact absurd (le_trans hcon.1 hle) (by norm_num)
      simp only [calculate_feels_like]
      rw [if_neg hno, if_pos ⟨hle, hge⟩]
  · intro hnoh hnow
    cases humidity with
    | none =>
      cases windMph with
      | none =>
        simp only [calculate_feels_like]
        rw [from_to_fahrenheit]
      | some w =>
        have hno : ¬ (to_fahrenheit t unit ≤ 50 ∧ 3 ≤ w) := fun hc => hnow ⟨w, rfl, hc⟩
        simp only [calculate_feels_like]
        rw [if_neg hno, from_to_fahrenheit]
    | some h =>
      have hh : ¬ (80 ≤ to_fahrenheit t unit ∧ 40 ≤ h) := fun hc => hnoh ⟨h, rfl, hc⟩
      cases windMph with
      | none =>
        simp only [calculate_feels_like]
        rw [if_neg hh, from_to_fahrenheit]
      | some w =>
        have hno : ¬ (to_fahrenheit t unit ≤ 50 ∧ 3 ≤ w) := fun hc => hnow ⟨w, rfl, hc⟩
        simp only [calculate_feels_like]
        rw [if_neg hh, if_neg hno, from_to_fahrenheit]

/-- Witness for C5: at exactly 80 °F and 40 % humidity the heat-index branch
activates, and at 79.9 °F (humidity 50, no wind) the felt temperature is the
rounded actual temperature. -/
theorem feels_like_branches_witness :
    calculate_feels_like id (some 80) "F" (some 40) none =
      some (pyRound (from_fahrenheit (heat_index_f (to_fahrenheit 80 "F") 40) "F")) ∧
    calculate_feels_like id (some (799/10)) "F" (some 50) none =
      some (pyRound (799/10)) := by
  have hF : ∀ q : ℚ, to_fahrenheit q "F" = q := by
    intro q
    simp [to_fahrenheit]
  constructor
  · exact (feels_like_branches id 80 "F" (some 40) none).1 40 rfl
      (by rw [hF]) (by norm_num)
  · exact (feels_like_branches id (799/10) "F" (some 50) none).2.2
      (by rintro ⟨h, hh, hge, -⟩; rw [hF] at hge; norm_num at hge)
      (by rintro ⟨w, hw, -, -⟩; exact Option.noConfusion hw)

/-- C9: `_severity_slug` always returns one of the four recognized slugs; it
returns the stripped, lower-cased input when that is recognized, and "minor"
for every other input (missing, empty, or unrecognized). -/
theorem severity_slug_total (value : Option String) :
    severity_slug value ∈ recognizedSlugs ∧
    (∀ v, value = some v → v ≠ "" → pyLower (pyStrip v) ∈ recognizedSlugs →
        severity_slug value = pyLower (pyStrip v)) ∧
    (∀ v, value = some v → v ≠ "" → pyLower (pyStrip v) ∉ recognizedSlugs →
        severity_slug value = "minor") ∧
    ((value = none ∨ value = some "") → severity_slug value = "minor") := by
  have hsome : ∀ v : String, v ≠ "" →
      severity_slug (some v) =
        if pyLower (pyStrip v) ∈ recognizedSlugs then pyLower (pyStrip v) else "minor" := by
    intro v hv
    simp [severity_slug, hv]
  refine ⟨?_, ?_, ?_, ?_⟩
  · cases value with
    | none => simp [severity_slug, recognizedSlugs]
    | some v =>
      by_cases hv : v = ""
      · simp [severity_slug, hv, recognizedSlugs]
      · rw [hsome v hv]
        by_cases hmem : pyLower (pyStrip v) ∈ recognizedSlugs
        · rw [if_pos hmem]
          exact hmem
        · rw [if_neg hmem]
          simp [recognizedSlugs]
  · rintro v rfl hv hmem
    rw [hsome v hv, if_pos hmem]
  · rintro v rfl hv hmem
    rw [hsome v hv, if_neg hmem]
  · rintro (rfl | rfl) <;> simp [severity_slug]

/-- Witness for C9: "  SEVERE " normalizes to "severe"; "bogus" and `None`
normalize to "minor". -/
theorem severity_slug_total_witness :
    severity_slug (some "  SEVERE ") = pyLower (pyStrip "  SEVERE ") ∧
    severity_slug (some "bogus") = "minor" ∧
    severity_slug none = "minor" := by
  refine ⟨?_, ?_, ?_⟩
  · exact (severity_slug_total (some "  SEVERE ")).2.1 "  SEVERE " rfl (by decide) (by decide)
  · exact (severity_slug_total (some "bogus")).2.2.1 "bogus" rfl (by decide) (by decide)
  · exact (severity_slug_total none).2.2.2 (Or.inl rfl)

/-- One greedy match of the body `\d*\.?\d+` of the wind-speed number pattern
at the head of `cs` (from `_parse_wind_speed_mph`, weather_service.py line 31):
returns the matched characters and the remaining input, or `none` when the
pattern cannot match here. The case split reproduces the regex engine's greedy
backtracking: a maximal digit run, then a decimal point only when at least one
digit follows it; with no leading digits, a point followed by a digit is
required. -/
def matchNumBody (cs : List Char) : Option (List Char × List Char) :=
  let a := cs.takeWhile Char.isDigit
  let rest := cs.dropWhile Char.isDigit
  if a.isEmpty then
    match rest with
    | '.' :: rest2 =>
      let b := rest2.takeWhile Char.isDigit
      if b.isEmpty then none
      else some ('.' :: b, rest2.dropWhile Char.isDigit)
    | _ => none
  else
    match rest with
    | '.' :: rest2 =>
      let b := rest2.takeWhile Char.isDigit
      if b.isEmpty then some (a, rest)
      else some (a ++ '.' :: b, rest2.dropWhile Char.isDigit)
    | _ => some (a, rest)

/-- One match of the full pattern `[-+]?\d*\.?\d+` at the head of `cs`. When a
sign is present the body must match right after it (matching the empty sign
instead would restart at the sign character, where the body cannot match). -/
def matchNumToken (cs : List Char) : Option (List Char × List Char) :=
  match cs with
  | [] => none
  | c :: rest =>
    if c = '+' ∨ c = '-' then
      match matchNumBody rest with
      | some (tok, rem) => some (c :: tok, rem)
      | none => none
    else matchNumBody cs

/-- Embeds `re.findall(r"[-+]?\d*\.?\d+", value)`: scan left to right, taking
non-overlapping leftmost matches, advancing one character where no match
starts. Every step consumes at least one character, so fuel equal to the input
length makes the recursion total without changing its meaning. -/
def findNumTokensAux : Nat → List Char → List (List Char)
  | 0, _ => []
  | _ + 1, [] => []
  | fuel + 1, c :: rest =>
    match matchNumToken (c :: rest) with
    | some (tok, rem) => tok :: findNumTokensAux fuel rem
    | none => findNumTokensAux fuel rest

/-- All numeric tokens of `s`, per `re.findall(r"[-+]?\d*\.?\d+", s)`. -/
def findNumTokens (s : String) : List (List Char) :=
  findNumTokensAux s.data.length s.data

/-- Decimal digit run to a natural number. -/
def digitsToNat (ds : List Char) : ℕ :=
  ds.foldl (fun acc c => 10 * acc + (c.toNat - 48)) 0

/-- Python `float` on an (unsigned) token matched by `\d*\.?\d+`, as an exact
rational. -/
def ratOfNumBody (cs : List Char) : ℚ :=
  let a := cs.takeWhile Char.isDigit
  let rest := cs.dropWhile Char.isDigit
  match rest with
  | '.' :: b => (digitsToNat a : ℚ) + (digitsToNat b : ℚ) / (10 : ℚ) ^ b.length
  | _ => (digitsToNat a : ℚ)

/-- Python `float` on a full signed token matched by `[-+]?\d*\.?\d+`. -/
def ratOfNumToken (cs : List Char) : ℚ :=
  match cs with
  | '-' :: rest => -(ratOfNumBody rest)
  | '+' :: rest => ratOfNumBody rest
  | _ => ratOfNumBody cs

/-- Embeds `_parse_wind_speed_mph` (weather_service.py lines 28-35): `None` or
empty input gives `None`; otherwise the mean of all numeric tokens, or `None`
when there is no token. -/
def parse_wind_speed_mph (value : Option String) : Option ℚ :=
  match value with
  | none => none
  | some s =>
    if s = "" then none
    else
      let toks := findNumTokens s
      if toks.isEmpty then none
      else some ((toks.map ratOfNumToken).sum / (toks.length : ℚ))

/-- C10: the parsed wind speed equals the arithmetic mean of all numeric
tokens found in the string — e.g. the range "10 to 15 mph" parses to 12.5,
not either bound — and the result is `None` exactly when the input is
`None`/empty or contains no numeric token. -/
theorem wind_speed_is_mean (value : Option String) :
    (∀ s, value = some s → findNumTokens s ≠ [] →
      parse_wind_speed_mph value =
        some (((findNumTokens s).map ratOfNumToken).sum / ((findNumTokens s).length : ℚ))) ∧
    (parse_wind_speed_mph value = none ↔
      value = none ∨ value = some "" ∨ ∃ s, value = some s ∧ findNumTokens s = []) ∧
    parse_wind_speed_mph (some "10 to 15 mph") = some (25/2) := by
  have heval : findNumTokens "10 to 15 mph" = [['1', '0'], ['1', '5']] := by decide
  have hex : parse_wind_speed_mph (some "10 to 15 mph") = some (25/2) := by
    have h1 : digitsToNat ['1', '0'] = 10 := by decide
    have h2 : digitsToNat ['1', '5'] = 15 := by decide
    have h3 : ratOfNumToken ['1', '0'] = ((digitsToNat ['1', '0'] : ℕ) : ℚ) := rfl
    have h4 : ratOfNumToken ['1', '5'] = ((digitsToNat ['1', '5'] : ℕ) : ℚ) := rfl
    simp only [parse_wind_speed_mph, heval]
    rw [if_neg (show ¬("10 to 15 mph" = "") from by decide)]
    simp only [List.isEmpty_cons, Bool.false_eq_true, if_false, List.map_cons, List.map_nil,
      List.sum_cons, List.sum_nil, List.length_cons, List.length_nil, h3, h4, h1, h2]
    norm_num
  refine ⟨?_, ?_, hex⟩
  · rintro s rfl htok
    by_cases hs : s = ""
    · subst hs
      exact absurd (by decide) htok
    · simp only [parse_wind_speed_mph, hs, if_false]
      rw [if_neg (by simpa [List.isEmpty_iff] using htok)]
  · constructor
    · intro hnone
      cases value with
      | none => exact Or.inl rfl
      | some s =>
        by_cases hs : s = ""
        · exact Or.inr (Or.inl (by rw [hs]))
        · refine Or.inr (Or.inr ⟨s, rfl, ?_⟩)
          by_contra htok
          rw [parse_wind_speed_mph] at hnone
          simp only [hs, if_false] at hnone
          rw [if_neg (by simpa [List.isEmpty_iff] using htok)] at hnone
          exact Option.noConfusion hnone
    · rintro (rfl | rfl | ⟨s, rfl, htok⟩)
      · rfl
      · rfl
      · simp [parse_wind_speed_mph, htok]

/-- Witness for C10: on "10 to 15 mph" the mean formula applies and yields
12.5. -/
theorem wind_speed_is_mean_witness :
    parse_wind_speed_mph (some "10 to 15 mph") =
      some (((findNumTokens "10 to 15 mph").map ratOfNumToken).sum /
        ((findNumTokens "10 to 15 mph").length : ℚ)) ∧
    parse_wind_speed_mph (some "calm") = none := by
  constructor
  · exact (wind_speed_is_mean (some "10 to 15 mph")).1 "10 to 15 mph" rfl (by decide)
  · exact (wind_speed_is_mean (some "calm")).2.1.mpr
      (Or.inr (Or.inr ⟨"calm", rfl, by decide⟩))

/-! Cache layer (utils.py). Python dicts become association lists; the JSON
values cached for a group are an arbitrary type `V`. Each public operation in
utils.py loads the backing file, runs `_ensure_today`, performs its work, and
(for writers) persists with `_write_cache_file`; the embedding takes the loaded
`CacheFile` and today's date key as arguments and returns results plus, for
writers, the persisted file. -/

/-- Lookup in a Python dict modelled as an association list. -/
def alookup {β : Type} (k : String) : List (String × β) → Option β
  | [] => none
  | (k', v) :: rest => if k' = k then some v else alookup k rest

/-- Python dict assignment `d[k] = v`: overwrite in place or append. -/
def aset {β : Type} (k : String) (v : β) : List (String × β) → List (String × β)
  | [] => [(k, v)]
  | (k', v') :: rest => if k' = k then (k, v) :: rest else (k', v') :: aset k v rest

/-- Python `d.pop(k, None)`. -/
def aremove {β : Type} (k : String) : List (String × β) → List (String × β)
  | [] => []
  | (k', v') :: rest => if k' = k then rest else (k', v') :: aremove k rest

/-- One cached value with its expiry (utils.py `{"expires_at": ..., "value": ...}`). -/
structure CacheEntry (V : Type) where
  expires_at : ℚ
  value : V
deriving DecidableEq

/-- One remembered location (utils.py `register_location`). -/
structure LocationRecord where
  label : String
  lat : ℚ
  lon : ℚ
  updated_at : ℤ
deriving DecidableEq

/-- The persisted cache file (utils.py `_empty_cache` shape): an epoch date
under `meta.last_refresh_date`, cache groups, locations, and aliases. -/
structure CacheFile (V : Type) where
  last_refresh_date : String
  groups : List (String × List (String × CacheEntry V))
  locations : List (String × LocationRecord)
  aliases : List (String × String)
deriving DecidableEq

/-- Embeds `_ensure_today` (utils.py lines 168-176): when the stored epoch date
differs from today, groups, locations and aliases are all reset to empty and
the date is advanced; returns the (possibly reset) cache and whether it
changed. -/
def ensure_today {V : Type} (today : String) (c : CacheFile V) : CacheFile V × Bool :=
  if c.last_refresh_date ≠ today then
    ({ last_refresh_date := today, groups := [], locations := [], aliases := [] }, true)
  else (c, false)

/-- Embeds `resolve_location_alias` (utils.py lines 105-113). -/
def resolve_location_alias {V : Type} (today : String) (c : CacheFile V)
    (alias_key : String) : Option String :=
  if alias_key = "" then none
  else alookup alias_key (ensure_today today c).1.aliases

/-- Embeds `register_location_alias` (utils.py lines 116-126); returns the
persisted cache file. -/
def register_location_alias {V : Type} (today : String) (c : CacheFile V)
    (alias_key canonical_key : String) : CacheFile V :=
  if alias_key = "" ∨ canonical_key = "" then c
  else
    let c' := (ensure_today today c).1
    { c' with aliases := aset alias_key canonical_key c'.aliases }

/-- Embeds `_prune_group_cache` (utils.py lines 203-207): drop every entry of
the group whose `expires_at <= now`. -/
def prune_group_cache {V : Type} (now : ℚ)
    (grp : List (String × CacheEntry V)) : List (String × CacheEntry V) :=
  grp.filter (fun kv => decide (now < kv.2.expires_at))

/-- The read phase of `cached_get_json` (utils.py lines 222-228): the first
lock block loads the cache, applies `_ensure_today`, and looks the fingerprint
up in the group, returning the value only when `expires_at > now`. The block
contains no `_write_cache_file` call, so the persisted file is returned
untouched alongside the result. -/
def cached_get_phase {V : Type} (today : String) (now : ℚ) (c : CacheFile V)
    (group key : String) : Option V × CacheFile V :=
  let c' := (ensure_today today c).1
  match alookup key ((alookup group c'.groups).getD []) with
  | some entry => (if now < entry.expires_at then some entry.value else none, c)
  | none => (none, c)

/-- Embeds `cached_get_json` (utils.py lines 210-245): on a cache hit the
cached value is returned and nothing is written; on a miss the fetched
upstream value (`fetched`, the oracle for `requests.get(...).json()`) is
returned and persisted after pruning the group's expired entries at write
time. -/
def cached_get_json {V : Type} (today : String) (now write_time ttl : ℚ)
    (c : CacheFile V) (group key : String) (fetched : V) : V × CacheFile V :=
  match (cached_get_phase today now c group key).1 with
  | some v => (v, c)
  | none =>
    let c' := (ensure_today today c).1
    let grp := (alookup group c'.groups).getD []
    let grp' := aset key { expires_at := write_time + ttl, value := fetched }
      (prune_group_cache write_time grp)
    (fetched, { c' with groups := aset group grp' c'.groups })

/-- Embeds `register_location` (utils.py lines 259-271). -/
def register_location {V : Type} (today : String) (now : ℤ) (c : CacheFile V)
    (location_key label : String) (lat lon : ℚ) : CacheFile V :=
  if location_key = "" then c
  else
    let c' := (ensure_today today c).1
    let newRecord : LocationRecord :=
      { label := if label = "" then location_key else label
        lat := lat, lon := lon, updated_at := now }
    { c' with locations := aset location_key newRecord c'.locations }

/-- One row of `list_cached_locations`. -/
structure LocationSummary where
  key : String
  label : String
  lat : ℚ
  lon : ℚ
deriving DecidableEq

/-- Embeds `list_cached_locations` (utils.py lines 274-293): summaries of all
locations, sorted case-insensitively by label (Python's stable `sorted` with a
lower-cased key, realized as a stable merge sort). -/
def list_cached_locations {V : Type} (today : String) (c : CacheFile V) :
    List LocationSummary :=
  let c' := (ensure_today today c).1
  let locs := c'.locations.map (fun kv =>
    { key := kv.1
      label := if kv.2.label = "" then kv.1 else kv.2.label
      lat := kv.2.lat, lon := kv.2.lon : LocationSummary })
  locs.mergeSort (fun a b => decide (pyLower a.label ≤ pyLower b.label))

/-- Embeds `location_group_key` (utils.py lines 129-132). -/
def location_group_key (location_key : String) : String :=
  if location_key = "" then "default" else "loc:" ++ location_key

/-- Embeds `clear_cache_group` (utils.py lines 296-303). -/
def clear_cache_group {V : Type} (today : String) (c : CacheFile V)
    (cache_group : String) : CacheFile V :=
  if cache_group = "" then c
  else
    let c' := (ensure_today today c).1
    { c' with groups := aremove cache_group c'.groups }

/-- Embeds `delete_location_cache` (utils.py lines 312-320). -/
def delete_location_cache {V : Type} (today : String) (c : CacheFile V)
    (location_key : String) : CacheFile V :=
  if location_key = "" then c
  else
    let c' := (ensure_today today c).1
    { c' with
        groups := aremove (location_group_key location_key) c'.groups
        locations := aremove location_key c'.locations }

/-- C4: on any cache-backed operation, if the persisted epoch date differs
from today then all groups, locations and aliases are discarded before the
operation reads or writes anything: reads (`get`, alias resolve, location
list) find nothing — even entries whose TTL has not expired — and writes
(`put`, alias/location register, location delete) start from the emptied
store. -/
theorem epoch_rollover_resets {V : Type} (today : String) (c : CacheFile V)
    (hstale : c.last_refresh_date ≠ today) :
    ((ensure_today today c).1.groups = [] ∧
     (ensure_today today c).1.locations = [] ∧
     (ensure_today today c).1.aliases = []) ∧
    (∀ now group key, (cached_get_phase today now c group key).1 = none) ∧
    (∀ ak, resolve_location_alias today c ak = none) ∧
    list_cached_locations today c = [] ∧
    (∀ now wt ttl group key (fetched : V),
      (cached_get_json today now wt ttl c group key fetched).1 = fetched ∧
      (cached_get_json today now wt ttl c group key fetched).2 =
        { last_refresh_date := today
          groups := [(group, [(key, ⟨wt + ttl, fetched⟩)])]
          locations := [], aliases := [] }) ∧
    (∀ ak ck, ak ≠ "" → ck ≠ "" →
      register_location_alias today c ak ck =
        { last_refresh_date := today, groups := [], locations := []
          aliases := [(ak, ck)] }) ∧
    (∀ now lk label lat lon, lk ≠ "" →
      (register_location today now c lk label lat lon).groups = [] ∧
      (register_location today now c lk label lat lon).aliases = [] ∧
      (register_location today now c lk label lat lon).locations.map Prod.fst = [lk]) ∧
    (∀ lk, lk ≠ "" →
      delete_location_cache today c lk =
        { last_refresh_date := today, groups := [], locations := [], aliases := [] }) := by
  have hE : ensure_today today c =
      ({ last_refresh_date := today, groups := [], locations := [], aliases := [] }, true) := by
    simp [ensure_today, hstale]
  refine ⟨?_, ?_, ?_, ?_, ?_, ?_, ?_, ?_⟩
  · rw [hE]
    exact ⟨rfl, rfl, rfl⟩
  · intro now group key
    simp [cached_get_phase, hE, alookup]
  · intro ak
    by_cases hak : ak = "" <;> simp [resolve_location_alias, hak, hE, alookup]
  · simp [list_cached_locations, hE]
  · intro now wt ttl group key fetched
    constructor
    · simp [cached_get_json, cached_get_phase, hE, alookup]
    · simp [cached_get_json, cached_get_phase, hE, alookup, prune_group_cache, aset]
  · intro ak ck hak hck
    simp [register_location_alias, hak, hck, hE, aset]
  · intro now lk label lat lon hlk
    refine ⟨?_, ?_, ?_⟩ <;> simp [register_location, hlk, hE, aset]
  · intro lk hlk
    simp [delete_location_cache, hlk, hE, aremove]

/-- Concrete stale store for the C4 witness: epoch 2026-10-11, one unexpired
group entry, one location, one alias. -/
def demoStaleCache : CacheFile ℤ :=
  { last_refresh_date := "2026-10-11"
    groups := [("loc:Pittsburgh, PA", [("u", ⟨1000, 7⟩)])]
    locations := [("Pittsburgh, PA", ⟨"Pittsburgh, PA", 40, -80, 5⟩)]
    aliases := [("coord:40.4406,-79.9959", "Pittsburgh, PA")] }

/-- Witness for C4: on 2026-10-12, every lookup against the 2026-10-11 store
comes back absent although the stored entry's TTL (expiry 1000, now 0) has not
passed. -/
theorem epoch_rollover_resets_witness :
    (cached_get_phase "2026-10-12" 0 demoStaleCache "loc:Pittsburgh, PA" "u").1 = none ∧
    resolve_location_alias "2026-10-12" demoStaleCache "coord:40.4406,-79.9959" = none ∧
    list_cached_locations "2026-10-12" demoStaleCache = [] := by
  have h := epoch_rollover_resets "2026-10-12" demoStaleCache (by decide)
  exact ⟨h.2.1 0 "loc:Pittsburgh, PA" "u", h.2.2.1 "coord:40.4406,-79.9959", h.2.2.2.1⟩

/-- The read phase of `cached_get_json`, reduced to one lookup over the loaded
store when the epoch is current. -/
theorem cached_get_phase_eq {V : Type} (today : String) (now : ℚ) (c : CacheFile V)
    (group key : String) (hfresh : c.last_refresh_date = today) :
    cached_get_phase today now c group key =
      ((match alookup key ((alookup group c.groups).getD []) with
        | some entry => if now < entry.expires_at then some entry.value else none
        | none => none), c) := by
  have hE : (ensure_today today c).1 = c := by simp [ensure_today, hfresh]
  simp only [cached_get_phase, hE]
  cases alookup key ((alookup group c.groups).getD []) <;> rfl

/-- C8: with a current epoch, the read phase of `cached_get_json` returns a
stored value exactly when an entry exists for the group and fingerprint with
`expires_at` strictly greater than now; the read phase never writes the store;
an expired entry is treated as absent, so the upstream fetch result is
returned; and on a hit the whole call returns the cached value with the store
untouched. -/
theorem cache_get_iff {V : Type} (today : String) (now : ℚ) (c : CacheFile V)
    (group key : String) (hfresh : c.last_refresh_date = today) :
    (∀ v : V, (cached_get_phase today now c group key).1 = some v ↔
      ∃ e, alookup key ((alookup group c.groups).getD []) = some e ∧
        now < e.expires_at ∧ e.value = v) ∧
    (cached_get_phase today now c group key).2 = c ∧
    (∀ e, alookup key ((alookup group c.groups).getD []) = some e →
      e.expires_at ≤ now →
      (cached_get_phase today now c group key).1 = none ∧
      ∀ wt ttl (fetched : V),
        (cached_get_json today now wt ttl c group key fetched).1 = fetched) ∧
    (∀ (v : V) wt ttl (fetched : V),
      (cached_get_phase today now c group key).1 = some v →
      cached_get_json today now wt ttl c group key fetched = (v, c)) := by
  have hP := cached_get_phase_eq today now c group key hfresh
  refine ⟨?_, ?_, ?_, ?_⟩
  · intro v
    rw [hP]
    cases hl : alookup key ((alookup group c.groups).getD []) with
    | none => simp
    | some e =>
      by_cases hexp : now < e.expires_at
      · simp only [hexp, if_true]
        constructor
        · rintro h
          rw [Option.some_inj] at h
          exact ⟨e, rfl, hexp, h⟩
        · rintro ⟨e', he', hlt, rfl⟩
          rw [Option.some_inj] at he'
          subst he'
          rfl
      · simp only [hexp, if_false]
        constructor
        · rintro h
          exact Option.noConfusion h
        · rintro ⟨e', he', hlt, rfl⟩
          rw [Option.some_inj] at he'
          subst he'
          exact absurd hlt hexp
  · rw [hP]
  · intro e hl hexp
    have hnone : (cached_get_phase today now c group key).1 = none := by
      rw [hP]
      simp only [hl, not_lt.mpr hexp, if_false]
    refine ⟨hnone, ?_⟩
    intro wt ttl fetched
    simp only [cached_get_json, hnone]
  · intro v wt ttl fetched hv
    simp only [cached_get_json, hv]

/-- Concrete fresh store for the C8 witness: epoch current, one entry expiring
at 100. -/
def demoFreshCache : CacheFile ℤ :=
  { last_refresh_date := "2026-10-12"
    groups := [("g", [("k", ⟨100, 42⟩)])]
    locations := [], aliases := [] }

/-- Witness for C8: at `now = 50` the entry (expiry 100) is returned and the
store is untouched; at `now = 100` (expiry not strictly greater) it is treated
as absent and the fetched value is returned instead. -/
theorem cache_get_iff_witness :
    cached_get_json "2026-10-12" 50 51 60 demoFreshCache "g" "k" 7 = (42, demoFreshCache) ∧
    (cached_get_phase "2026-10-12" 100 demoFreshCache "g" "k").1 = none ∧
    (cached_get_json "2026-10-12" 100 101 60 demoFreshCache "g" "k" 7).1 = 7 := by
  have h50 := cache_get_iff "2026-10-12" 50 demoFreshCache "g" "k" rfl
  have h100 := cache_get_iff "2026-10-12" 100 demoFreshCache "g" "k" rfl
  have hl : alookup "k" ((alookup "g" demoFreshCache.groups).getD []) =
      some ⟨100, 42⟩ := by decide
  have hexp := h100.2.2.1 ⟨100, 42⟩ hl (by norm_num)
  refine ⟨?_, hexp.1, hexp.2 101 60 7⟩
  exact h50.2.2.2 42 51 60 7 ((h50.1 42).mpr ⟨⟨100, 42⟩, hl, by norm_num, rfl⟩)

/-! Head of `fetch_forecast` (weather_service.py lines 969-1047): coordinate
validation, alias resolution, the points-metadata fetch, canonical-key
selection, and the coordinate-alias registration. The network is an explicit
oracle argument and the issued upstream requests are collected in order, so
"no network call" is the statement `requests = []`. -/

/-- Embeds `format_location_key` (utils.py lines 85-92): `None` when either
part is missing or empty (Python falsiness), else the stripped
`"City, State"`. -/
def format_location_key (city state : Option String) : Option String :=
  match city, state with
  | some c, some st =>
    if c = "" ∨ st = "" then none
    else some (pyStrip c ++ ", " ++ pyStrip st)
  | _, _ => none

/-- Embeds `format_coordinate_alias` (utils.py lines 95-102). The Python
formats the floats with `f"coord:{lat:.4f},{lon:.4f}"`; the model renders the
half-even-rounded value in units of 1/10000, which is the same key up to
injective re-spelling, and no claim inspects the text of the key. -/
def format_coordinate_alias (lat lon : ℚ) : String :=
  "coord:" ++ toString (pyRound (lat * 10000)) ++ "," ++ toString (pyRound (lon * 10000))

/-- Python `x or y` on optional strings, where `None` and `""` are falsy. -/
def pyOrStr (a b : Option String) : Option String :=
  match a with
  | some s => if s = "" then b else some s
  | none => b

/-- The preferred-key resolution at the top of `fetch_forecast` (lines
997-1001): a non-blank stripped `preferred_location_key` wins, else the key
formatted from the preferred city/state. -/
def preferred_key_of (plk pc ps : Option String) : Option String :=
  let stripped : Option String :=
    match plk with
    | some s => if pyStrip s = "" then none else some (pyStrip s)
    | none => none
  match stripped with
  | some k => some k
  | none => format_location_key pc ps

/-- Result of one upstream HTTP GET: parsed payload, HTTP error status, or
network failure (`requests.HTTPError` / `requests.RequestException`). -/
inductive FetchOutcome (α : Type) where
  | ok (value : α)
  | httpError
  | netError
deriving DecidableEq

/-- The parts of the points-metadata payload the head of `fetch_forecast`
reads: `properties.forecast` and `properties.relativeLocation.properties`'
city/state. -/
structure PointsProps where
  forecastUrl : Option String
  city : Option String
  state : Option String
deriving DecidableEq

/-- An upstream request issued by the head of `fetch_forecast`. -/
inductive UpstreamRequest where
  | points (lat lon : ℚ)
deriving DecidableEq

/-- Observable outcome of the head of `fetch_forecast`: the error message (if
the function returned early), the selected canonical location key, the alias
registration performed (alias key, canonical key), and the upstream requests
issued, in order. -/
structure HeadOut where
  error : Option String
  location_key : Option String
  alias_write : Option (String × String)
  requests : List UpstreamRequest
deriving DecidableEq

/-- Embeds `fetch_forecast` lines 979-1047: parse/validate the coordinates,
resolve the coordinate alias, resolve the preferred key, fetch the points
metadata, derive the default `"City, State"` key, select
`preferred_key or cached_location_key or default_key` (Python truthiness),
and register the coordinate alias when the selected key differs from the
cached alias value. `latParsed`/`lonParsed` are the `float(...)` results
(`none` = unparseable), `aliasLookup` the alias table read, `pointsFetch` the
network oracle for the points request. -/
def fetch_forecast_head (latParsed lonParsed : Option ℚ)
    (aliasLookup : String → Option String)
    (plk pc ps : Option String)
    (pointsFetch : FetchOutcome PointsProps) : HeadOut :=
  match latParsed, lonParsed with
  | some lat, some lon =>
    if ¬(-90 ≤ lat ∧ lat ≤ 90 ∧ -180 ≤ lon ∧ lon ≤ 180) then
      { error := some "Coordinates are out of range.", location_key := none
        alias_write := none, requests := [] }
    else
      let coord_alias := format_coordinate_alias lat lon
      let cached_location_key := aliasLookup coord_alias
      let preferred_key := preferred_key_of plk pc ps
      match pointsFetch with
      | .httpError =>
        { error := some "Weather.gov returned an error for those coordinates."
          location_key := none, alias_write := none
          requests := [.points lat lon] }
      | .netError =>
        { error := some "Could not reach api.weather.gov."
          location_key := none, alias_write := none
          requests := [.points lat lon] }
      | .ok props =>
        if props.forecastUrl = none ∨ props.forecastUrl = some "" then
          { error := some "No forecast URL available for that location."
            location_key := none, alias_write := none
            requests := [.points lat lon] }
        else
          let default_key := format_location_key props.city props.state
          match pyOrStr (pyOrStr preferred_key cached_location_key) default_key with
          | none =>
            { error := some "Could not determine city and state for this location."
              location_key := none, alias_write := none
              requests := [.points lat lon] }
          | some lk =>
            if lk = "" then
              { error := some "Could not determine city and state for this location."
                location_key := none, alias_write := none
                requests := [.points lat lon] }
            else
              { error := none, location_key := some lk
                alias_write :=
                  if coord_alias ≠ "" ∧ cached_location_key ≠ some lk then
                    some (coord_alias, lk)
                  else none
                requests := [.points lat lon] }
  | _, _ =>
    { error := some "Enter valid decimal coordinates.", location_key := none
      alias_write := none, requests := [] }

/-- When the coordinates are in range, the points fetch succeeds with a
forecast URL, no preferred key resolves, and the coordinate alias is cached
with a non-blank canonical key, the head of `fetch_forecast` selects the
cached key and registers no alias. (Shared evaluation lemma for C1.) -/
theorem head_cached_key_wins (lat lon : ℚ) (aliasLookup : String → Option String)
    (plk pc ps : Option String) (props : PointsProps) (ck : String)
    (hrange : -90 ≤ lat ∧ lat ≤ 90 ∧ -180 ≤ lon ∧ lon ≤ 180)
    (hfurl : ¬(props.forecastUrl = none ∨ props.forecastUrl = some ""))
    (hpref : preferred_key_of plk pc ps = none)
    (hcached : aliasLookup (format_coordinate_alias lat lon) = some ck)
    (hck : ck ≠ "") :
    fetch_forecast_head (some lat) (some lon) aliasLookup plk pc ps (.ok props) =
      { error := none, location_key := some ck, alias_write := none
        requests := [.points lat lon] } := by
  simp only [fetch_forecast_head]
  rw [if_neg (not_not.mpr hrange), if_neg hfurl, hcached, hpref]
  simp [pyOrStr, hck]

/-- Points metadata for the C1 scenario: the freshly derived canonical key is
"Newtown, PA". -/
def demoPoints : PointsProps :=
  { forecastUrl := some "https://api.weather.gov/gridpoints/PBZ/10,20/forecast"
    city := some "Newtown", state := some "PA" }

/-- Alias table for the C1 scenario: the coordinate alias resolves to the
cached canonical key "Oldtown, PA", which disagrees with the fresh one. -/
def demoAliasLookup : String → Option String := fun _ => some "Oldtown, PA"

/-- C1 counterexample: with a cached coordinate-alias key ("Oldtown, PA") and
a freshly derived key ("Newtown, PA") that disagree and no preferred key,
`fetch_forecast` selects the cached alias key — not the fresh derivation —
and does not rewrite the alias, contradicting the claim. -/
theorem alias_precedence_counterexample :
    format_location_key demoPoints.city demoPoints.state = some "Newtown, PA" ∧
    demoAliasLookup (format_coordinate_alias 40 (-80)) = some "Oldtown, PA" ∧
    preferred_key_of none none none = none ∧
    (fetch_forecast_head (some 40) (some (-80)) demoAliasLookup none none none
        (.ok demoPoints)).location_key = some "Oldtown, PA" ∧
    (fetch_forecast_head (some 40) (some (-80)) demoAliasLookup none none none
        (.ok demoPoints)).alias_write = none := by
  have h := head_cached_key_wins 40 (-80) demoAliasLookup none none none demoPoints
    "Oldtown, PA" (by norm_num) (by decide) rfl rfl (by decide)
  exact ⟨by decide, rfl, rfl, by rw [h], by rw [h]⟩

/-- C1 amended: when a cached coordinate-alias canonical key and a freshly
derived canonical key both exist and disagree and no preferred key is
supplied, `fetch_forecast` uses the cached alias key as the location key (the
cached alias is authoritative over the fresh derivation, selection order
`preferred or cached or fresh`) and the alias is not rewritten — it is
rewritten only when the selected key differs from the cached value. -/
theorem alias_precedence_amended (lat lon : ℚ) (aliasLookup : String → Option String)
    (plk pc ps : Option String) (props : PointsProps) (ck dk : String)
    (hrange : -90 ≤ lat ∧ lat ≤ 90 ∧ -180 ≤ lon ∧ lon ≤ 180)
    (hfurl : ¬(props.forecastUrl = none ∨ props.forecastUrl = some ""))
    (hpref : preferred_key_of plk pc ps = none)
    (hcached : aliasLookup (format_coordinate_alias lat lon) = some ck)
    (hck : ck ≠ "")
    (_hfresh : format_location_key props.city props.state = some dk)
    (_hne : ck ≠ dk) :
    (fetch_forecast_head (some lat) (some lon) aliasLookup plk pc ps
        (.ok props)).location_key = some ck ∧
    (fetch_forecast_head (some lat) (some lon) aliasLookup plk pc ps
        (.ok props)).alias_write = none := by
  rw [head_cached_key_wins lat lon aliasLookup plk pc ps props ck
    hrange hfurl hpref hcached hck]
  exact ⟨rfl, rfl⟩

/-- Witness for the amended C1: the concrete disagreeing scenario. -/
theorem alias_precedence_amended_witness :
    (fetch_forecast_head (some 40) (some (-80)) demoAliasLookup none none none
        (.ok demoPoints)).location_key = some "Oldtown, PA" ∧
    (fetch_forecast_head (some 40) (some (-80)) demoAliasLookup none none none
        (.ok demoPoints)).alias_write = none :=
  alias_precedence_amended 40 (-80) demoAliasLookup none none none demoPoints
    "Oldtown, PA" "Newtown, PA" (by norm_num) (by decide) rfl rfl (by decide)
    (by decide) (by decide)

/-- C3: for all parsed decimal coordinates with `|lat| > 90` or `|lon| > 180`,
`fetch_forecast` returns the out-of-range InvalidInput message and issues no
upstream request, for every cache state, preferred-key hint, and network
oracle. -/
theorem out_of_range_no_network (lat lon : ℚ) (aliasLookup : String → Option String)
    (plk pc ps : Option String) (pointsFetch : FetchOutcome PointsProps)
    (h : 90 < |lat| ∨ 180 < |lon|) :
    fetch_forecast_head (some lat) (some lon) aliasLookup plk pc ps pointsFetch =
      { error := some "Coordinates are out of range.", location_key := none
        alias_write := none, requests := [] } := by
  have hcond : ¬(-90 ≤ lat ∧ lat ≤ 90 ∧ -180 ≤ lon ∧ lon ≤ 180) := by
    rintro ⟨h1, h2, h3, h4⟩
    rcases h with h | h
    · exact absurd (abs_le.mpr ⟨h1, h2⟩) (not_le.mpr h)
    · exact absurd (abs_le.mpr ⟨h3, h4⟩) (not_le.mpr h)
  simp only [fetch_forecast_head]
  rw [if_pos hcond]

/-- Witness for C3: latitude 91 is rejected with the out-of-range message and
an empty request log, independently of the network oracle (here: a failing
network). -/
theorem out_of_range_no_network_witness :
    fetch_forecast_head (some 91) (some 0) (fun _ => none) none none none
        .netError =
      { error := some "Coordinates are out of range.", location_key := none
        alias_write := none, requests := [] } :=
  out_of_range_no_network 91 0 (fun _ => none) none none none .netError
    (Or.inl (by rw [show |(91 : ℚ)| = 91 from abs_of_pos (by norm_num)]; norm_num))

/-! Alert-area post-processing (`_build_alert_areas` lines 468-494,
`_shade_from_base`, `_text_color_for_rgb`). The construction of the raw area
list (zone fetches / geocoding) happens earlier in the function; the claims
concern the filter, the colorization loop, and the final sort, which operate
on the built list, so the embedding takes that list as input. -/

/-- One alert area as built by `_build_alert_areas` before post-processing:
name, optional distance, and the fields the colorization loop fills in
(`color`/`text_color` start as `None`, `is_closest` as `False`). -/
structure AlertArea where
  name : String
  distance : Option ℚ
  color : Option (ℤ × ℤ × ℤ)
  text_color : Option String
  is_closest : Bool
deriving DecidableEq

/-- An area as appended by `_build_alert_areas` (lines 410-421 and 457-466):
no color yet, not closest. -/
def mkArea (name : String) (d : Option ℚ) : AlertArea :=
  { name := name, distance := d, color := none, text_color := none
    is_closest := false }

/-- Embeds `ALERT_AREA_BASE_COLORS` with the `.get(slug, minor)` default
(weather_service.py lines 38-43 and 476). -/
def alert_area_base_color (slug : String) : ℤ × ℤ × ℤ :=
  if slug = "minor" then (29, 78, 216)
  else if slug = "moderate" then (180, 83, 9)
  else if slug = "severe" then (185, 28, 28)
  else if slug = "extreme" then (127, 29, 29)
  else (29, 78, 216)

/-- `ALERT_AREA_LIGHTEN_MAX` (weather_service.py line 45). -/
def ALERT_AREA_LIGHTEN_MAX : ℚ := 72/100

/-- `ALERT_AREA_MAX_DISTANCE_MI` (weather_service.py line 46). -/
def ALERT_AREA_MAX_DISTANCE_MI : ℚ := 100

/-- The clamp `max(0, min(1, ratio))` from `_shade_from_base`. -/
def clamp01 (x : ℚ) : ℚ := max 0 (min 1 x)

/-- The effective lightening fraction `t` of `_shade_from_base`. -/
def shade_t (x : ℚ) : ℚ := clamp01 x * ALERT_AREA_LIGHTEN_MAX

/-- Embeds `_shade_from_base` (weather_service.py lines 328-337) on a present
base color (the callers always pass one of the four base triples). -/
def shade_from_base (base : ℤ × ℤ × ℤ) (r : ℚ) : ℤ × ℤ × ℤ :=
  let t := shade_t r
  (pyRound ((base.1 : ℚ) + (255 - (base.1 : ℚ)) * t),
   pyRound ((base.2.1 : ℚ) + (255 - (base.2.1 : ℚ)) * t),
   pyRound ((base.2.2 : ℚ) + (255 - (base.2.2 : ℚ)) * t))

/-- Embeds `_text_color_for_rgb` (weather_service.py lines 340-342). -/
def text_color_for_rgb (c : ℤ × ℤ × ℤ) : String :=
  let luminance :=
    (2126/10000 * (c.1 : ℚ) + 7152/10000 * (c.2.1 : ℚ) + 722/10000 * (c.2.2 : ℚ)) / 255
  if 6/10 < luminance then "#0b1f4d" else "#ffffff"

/-- The ratio `0 if max == min else (d - min) / (max - min)` from the
colorization loop (weather_service.py lines 484-486). -/
def area_frac (dmin dmax d : ℚ) : ℚ :=
  if dmax = dmin then 0 else (d - dmin) / (dmax - dmin)

/-- One iteration of the colorization loop (weather_service.py lines 481-491):
areas without a distance are skipped; otherwise color and text color are
assigned from the shaded base, and `is_closest` is set when the distance is
within 0.25 miles of the minimum. -/
def colorize_one (base : ℤ × ℤ × ℤ) (dmin dmax : ℚ) (a : AlertArea) : AlertArea :=
  match a.distance with
  | none => a
  | some d =>
    let c := shade_from_base base (area_frac dmin dmax d)
    { a with
        color := some c
        text_color := some (text_color_for_rgb c)
        is_closest := if |d - dmin| < 1/4 then true else a.is_closest }

/-- The colorization phase of `_build_alert_areas` (lines 476-491): when any
known distances exist, every area with a distance is colored relative to the
minimum and maximum known distance. -/
def colorize_areas (slug : String) (areas : List AlertArea) : List AlertArea :=
  let base := alert_area_base_color slug
  let distances := areas.filterMap (fun a => a.distance)
  match distances.min?, distances.max? with
  | some dmin, some dmax => areas.map (colorize_one base dmin dmax)
  | _, _ => areas

/-- The distance filter of `_build_alert_areas` (lines 468-474): keep only
areas whose distance is known and at most 100 miles. -/
def filter_areas (areas : List AlertArea) : List AlertArea :=
  areas.filter (fun a =>
    match a.distance with
    | some d => decide (d ≤ ALERT_AREA_MAX_DISTANCE_MI)
    | none => false)

/-- The comparison induced by the sort key
`(item["distance"] is None, item["distance"] or 0)` (line 493); `x or 0` only
re-spells `0.0` as `0`, which is the same rational. -/
def area_sort_le (a b : AlertArea) : Bool :=
  match a.distance, b.distance with
  | some x, some y => decide (x ≤ y)
  | some _, none => true
  | none, some _ => false
  | none, none => true

/-- The post-processing tail of `_build_alert_areas` (lines 468-494): filter,
colorize, and stable-sort ascending by the distance key. -/
def post_process_areas (slug : String) (areas : List AlertArea) : List AlertArea :=
  (colorize_areas slug (filter_areas areas)).mergeSort area_sort_le

/-- `colorize_one` never changes an area's name or distance. -/
theorem colorize_one_preserves (base : ℤ × ℤ × ℤ) (dmin dmax : ℚ) (a : AlertArea) :
    (colorize_one base dmin dmax a).name = a.name ∧
    (colorize_one base dmin dmax a).distance = a.distance := by
  cases hd : a.distance with
  | none => simp [colorize_one, hd]
  | some d => simp [colorize_one, hd]

/-- With no known distance at all, the colorization phase is the identity. -/
theorem colorize_areas_of_min_none (slug : String) (l : List AlertArea)
    (h : (List.filterMap (fun a => a.distance) l).min? = none) :
    colorize_areas slug l = l := by
  rw [List.min?_eq_none_iff] at h
  simp only [colorize_areas, h]
  rfl

/-- With known distances, the colorization phase maps `colorize_one` over the
list, relative to the minimum and maximum known distance. -/
theorem colorize_areas_of_min_some (slug : String) (l : List AlertArea)
    (dmin dmax : ℚ)
    (hmin : (List.filterMap (fun a => a.distance) l).min? = some dmin)
    (hmax : (List.filterMap (fun a => a.distance) l).max? = some dmax) :
    colorize_areas slug l =
      l.map (colorize_one (alert_area_base_color slug) dmin dmax) := by
  simp only [colorize_areas]
  rw [hmin, hmax]

/-- A list with a minimum has a maximum. -/
theorem max_some_of_min_some {l : List ℚ} {dmin : ℚ} (h : l.min? = some dmin) :
    ∃ dmax, l.max? = some dmax := by
  cases hx : l.max? with
  | some dmax => exact ⟨dmax, rfl⟩
  | none =>
    rw [List.max?_eq_none_iff] at hx
    rw [hx] at h
    exact Option.noConfusion h

/-- The colorization phase never changes names or distances. -/
theorem colorize_areas_preserves (slug : String) (l : List AlertArea) :
    (colorize_areas slug l).map (fun a => (a.name, a.distance)) =
      l.map (fun a => (a.name, a.distance)) := by
  cases hm : (List.filterMap (fun a => a.distance) l).min? with
  | none => rw [colorize_areas_of_min_none slug l hm]
  | some dmin =>
    obtain ⟨dmax, hx⟩ := max_some_of_min_some hm
    rw [colorize_areas_of_min_some slug l dmin dmax hm hx, List.map_map]
    apply List.map_congr_left
    intro a _
    have h := colorize_one_preserves (alert_area_base_color slug) dmin dmax a
    simp only [Function.comp_apply, h.1, h.2]

/-- Membership in the filtered list. -/
theorem mem_filter_areas {a : AlertArea} {l : List AlertArea} :
    a ∈ filter_areas l ↔ a ∈ l ∧ ∃ d, a.distance = some d ∧ d ≤ 100 := by
  unfold filter_areas
  rw [List.mem_filter]
  constructor
  · rintro ⟨hmem, hp⟩
    refine ⟨hmem, ?_⟩
    cases hd : a.distance with
    | none => rw [hd] at hp; exact Bool.noConfusion hp
    | some d =>
      rw [hd] at hp
      simp only [decide_eq_true_eq] at hp
      exact ⟨d, rfl, hp⟩
  · rintro ⟨hmem, d, hd, hle⟩
    refine ⟨hmem, ?_⟩
    rw [hd]
    simpa [ALERT_AREA_MAX_DISTANCE_MI] using hle

/-- `area_sort_le` is transitive. -/
theorem area_sort_le_trans (a b c : AlertArea) (hab : area_sort_le a b = true)
    (hbc : area_sort_le b c = true) : area_sort_le a c = true := by
  unfold area_sort_le at *
  cases ha : a.distance <;> cases hb : b.distance <;> cases hc : c.distance <;>
    rw [ha, hb] at hab <;> rw [hb, hc] at hbc <;> simp_all
  exact le_trans hab hbc

/-- `area_sort_le` is total. -/
theorem area_sort_le_total (a b : AlertArea) :
    (area_sort_le a b || area_sort_le b a) = true := by
  unfold area_sort_le
  cases a.distance <;> cases b.distance <;> simp
  exact le_total _ _

/-- C2 counterexample: an area whose distance is unknown is dropped by the
post-processing, contradicting "areas with unknown distance are kept and
sorted last". -/
theorem unknown_distance_kept_counterexample :
    post_process_areas "minor" [mkArea "Springfield" none] = [] := by
  have hf : filter_areas [mkArea "Springfield" none] = [] := by decide
  rw [post_process_areas, hf,
    show colorize_areas "minor" [] = [] from rfl, List.mergeSort_nil]

/-- C2 amended: the post-processing of `_build_alert_areas` drops every area
whose distance is unknown as well as every area whose known distance exceeds
100 miles; the result consists of exactly the areas with known distance at
most 100 miles (same names and distances), sorted ascending by distance. -/
theorem areas_filter_sort (slug : String) (areas : List AlertArea) :
    (∀ a ∈ post_process_areas slug areas, ∃ d, a.distance = some d ∧ d ≤ 100) ∧
    List.Perm ((post_process_areas slug areas).map (fun a => (a.name, a.distance)))
      ((areas.filter (fun a =>
        match a.distance with
        | some d => decide (d ≤ ALERT_AREA_MAX_DISTANCE_MI)
        | none => false)).map (fun a => (a.name, a.distance))) ∧
    (post_process_areas slug areas).Pairwise
      (fun a b => ∀ x y, a.distance = some x → b.distance = some y → x ≤ y) := by
  refine ⟨?_, ?_, ?_⟩
  · intro a ha
    rw [post_process_areas, List.mem_mergeSort] at ha
    cases hm : (List.filterMap (fun x => x.distance) (filter_areas areas)).min? with
    | none =>
      rw [colorize_areas_of_min_none slug _ hm] at ha
      obtain ⟨-, d, hd, hle⟩ := mem_filter_areas.mp ha
      exact ⟨d, hd, hle⟩
    | some dmin =>
      obtain ⟨dmax, hx⟩ := max_some_of_min_some hm
      rw [colorize_areas_of_min_some slug _ dmin dmax hm hx, List.mem_map] at ha
      obtain ⟨b, hb, rfl⟩ := ha
      rw [(colorize_one_preserves _ _ _ b).2]
      obtain ⟨-, d, hd, hle⟩ := mem_filter_areas.mp hb
      exact ⟨d, hd, hle⟩
  · have hperm := (List.mergeSort_perm
      (colorize_areas slug (filter_areas areas)) area_sort_le).map
      (fun a => (a.name, a.distance))
    rw [post_process_areas]
    rw [colorize_areas_preserves] at hperm
    exact hperm
  · have hsorted := @List.sorted_mergeSort AlertArea area_sort_le
      (fun a b c => area_sort_le_trans a b c)
      (fun a b => area_sort_le_total a b)
      (colorize_areas slug (filter_areas areas))
    rw [post_process_areas]
    refine hsorted.imp ?_
    intro a b hab x y hx hy
    unfold area_sort_le at hab
    rw [hx, hy] at hab
    simpa using hab

/-- Witness for the amended C2: in a two-area list, the unknown-distance area
is dropped and the 5-mile area survives with its distance intact. -/
theorem areas_filter_sort_witness :
    ∃ d, (colorize_one (alert_area_base_color "minor") 5 5
      (mkArea "A" (some 5))).distance = some d ∧ d ≤ 100 := by
  refine (areas_filter_sort "minor" [mkArea "A" (some 5), mkArea "B" none]).1 _ ?_
  have hf : filter_areas [mkArea "A" (some 5), mkArea "B" none] =
      [mkArea "A" (some 5)] := by decide
  have hc : colorize_areas "minor" [mkArea "A" (some 5)] =
      [colorize_one (alert_area_base_color "minor") 5 5 (mkArea "A" (some 5))] := rfl
  rw [post_process_areas, hf, hc, List.mem_mergeSort]
  exact List.mem_singleton_self _

/-- C7: in the colorization phase (known minimum `dmin` and maximum `dmax`
distance, all areas still unflagged as built): the lightening fraction is
`clamp((d - min)/(max - min)) * 0.72`, so it lies in `[0, 0.72]` (capped at
72 %) and is non-decreasing in the distance; every area with a known distance
gets the color shaded by exactly that fraction; and an area ends up flagged
`is_closest` exactly when its distance is within 0.25 miles of the minimum —
so with no 0.25-mile ties only the minimum-distance area is flagged, and with
ties all of them are. -/
theorem area_color_monotone (slug : String) (l : List AlertArea) (dmin dmax : ℚ)
    (hmin : (List.filterMap (fun a => a.distance) l).min? = some dmin)
    (hmax : (List.filterMap (fun a => a.distance) l).max? = some dmax)
    (hflag : ∀ a ∈ l, a.is_closest = false) :
    (∀ x, 0 ≤ shade_t x ∧ shade_t x ≤ ALERT_AREA_LIGHTEN_MAX) ∧
    (∀ d1 d2 : ℚ, dmin ≤ dmax → d1 ≤ d2 →
      shade_t (area_frac dmin dmax d1) ≤ shade_t (area_frac dmin dmax d2)) ∧
    colorize_areas slug l = l.map (colorize_one (alert_area_base_color slug) dmin dmax) ∧
    (∀ a ∈ l, ∀ d, a.distance = some d →
      (colorize_one (alert_area_base_color slug) dmin dmax a).color =
        some (shade_from_base (alert_area_base_color slug) (area_frac dmin dmax d))) ∧
    (∀ a ∈ l,
      ((colorize_one (alert_area_base_color slug) dmin dmax a).is_closest = true ↔
        ∃ d, a.distance = some d ∧ |d - dmin| < 1/4)) := by
  refine ⟨?_, ?_, colorize_areas_of_min_some slug l dmin dmax hmin hmax, ?_, ?_⟩
  · intro x
    constructor
    · exact mul_nonneg (le_max_left 0 _) (by norm_num [ALERT_AREA_LIGHTEN_MAX])
    · calc shade_t x = clamp01 x * ALERT_AREA_LIGHTEN_MAX := rfl
        _ ≤ 1 * ALERT_AREA_LIGHTEN_MAX := by
            refine mul_le_mul_of_nonneg_right ?_ (by norm_num [ALERT_AREA_LIGHTEN_MAX])
            exact max_le zero_le_one (min_le_left 1 x)
        _ = ALERT_AREA_LIGHTEN_MAX := one_mul _
  · intro d1 d2 hdm h12
    refine mul_le_mul_of_nonneg_right ?_ (by norm_num [ALERT_AREA_LIGHTEN_MAX])
    refine max_le_max le_rfl (min_le_min le_rfl ?_)
    unfold area_frac
    by_cases heq : dmax = dmin
    · simp [heq]
    · rw [if_neg heq, if_neg heq]
      have hpos : 0 < dmax - dmin := sub_pos.mpr (lt_of_le_of_ne hdm (Ne.symm heq))
      exact (div_le_div_iff_of_pos_right hpos).mpr (sub_le_sub_right h12 dmin)
  · intro a _ d hd
    simp [colorize_one, hd]
  · intro a ha
    have hf := hflag a ha
    cases hd : a.distance with
    | none => simp [colorize_one, hd, hf]
    | some d =>
      by_cases hc : |d - dmin| < 1/4
      · simp only [colorize_one, hd, if_pos hc]
        exact ⟨fun _ => ⟨d, rfl, hc⟩, fun _ => trivial⟩
      · simp [colorize_one, hd, hc, hf]

/-- Witness for C7: distances 1 and 10 (minimum 1, maximum 10): the lightening
fraction is monotone between them and the 1-mile area is flagged closest. -/
theorem area_color_monotone_witness :
    shade_t (area_frac 1 10 1) ≤ shade_t (area_frac 1 10 10) ∧
    ((colorize_one (alert_area_base_color "severe") 1 10
        (mkArea "A" (some 1))).is_closest = true ↔
      ∃ d, (mkArea "A" (some 1)).distance = some d ∧ |d - 1| < 1/4) := by
  have h := area_color_monotone "severe"
    [mkArea "A" (some 1), mkArea "B" (some 10)] 1 10
    (by decide) (by decide) (by decide)
  exact ⟨h.2.1 1 10 (by norm_num) (by norm_num),
    h.2.2.2.2 (mkArea "A" (some 1)) (by decide)⟩

/-! Zone-geometry distance (`_geometry_distance_miles` lines 111-163, with
`_point_in_ring`, `_point_to_segment_distance`, `_ring_min_distance`,
`_project_miles`, `_haversine_miles`). The projection and the two
transcendental distance kernels are abstracted:
  `proj lat lon` models `_project_miles(lat, lon, origin_lat)` (the
  equirectangular projection centered on the origin latitude),
  `hypot dx dy` models `math.hypot(dx, dy)`, and
  `hav lat lon` models `_haversine_miles(origin_lat, origin_lon, lat, lon)`.
Ring coordinates are GeoJSON `(lon, lat)` pairs. -/

/-- Embeds `_point_in_ring` (weather_service.py lines 70-82): even-odd ray
crossing over consecutive ring points, with the `1e-12` guard read as the
exact rational `10⁻¹²`. -/
def point_in_ring (p : ℚ × ℚ) (ring : List (ℚ × ℚ)) : Bool :=
  if ring.length < 3 then false
  else
    (List.zip ring ring.tail).foldl
      (fun inside seg =>
        let x0 := seg.1.1
        let y0 := seg.1.2
        let x1 := seg.2.1
        let y1 := seg.2.2
        if decide (y0 > p.2) ≠ decide (y1 > p.2) then
          let intersect_x := (x1 - x0) * (p.2 - y0) / (y1 - y0 + 1/1000000000000) + x0
          if p.1 < intersect_x then !inside else inside
        else inside)
      false

/-- Embeds `_point_to_segment_distance` (weather_service.py lines 85-97). -/
def point_to_segment_distance (hypot : ℚ → ℚ → ℚ) (p a b : ℚ × ℚ) : ℚ :=
  let dx := b.1 - a.1
  let dy := b.2 - a.2
  if dx = 0 ∧ dy = 0 then hypot (p.1 - a.1) (p.2 - a.2)
  else
    let t := ((p.1 - a.1) * dx + (p.2 - a.2) * dy) / (dx * dx + dy * dy)
    let tc := max 0 (min 1 t)
    let cx := a.1 + tc * dx
    let cy := a.2 + tc * dy
    hypot (p.1 - cx) (p.2 - cy)

/-- The consecutive edges `(ring[i], ring[i+1])` a ring's loops run over. -/
def ring_segments (ring : List (ℚ × ℚ)) : List ((ℚ × ℚ) × (ℚ × ℚ)) :=
  List.zip ring ring.tail

/-- Embeds `_ring_min_distance` (weather_service.py lines 100-108). -/
def ring_min_distance (hypot : ℚ → ℚ → ℚ) (p : ℚ × ℚ)
    (ring : List (ℚ × ℚ)) : Option ℚ :=
  if ring.length < 2 then none
  else ((ring_segments ring).map
    (fun seg => point_to_segment_distance hypot p seg.1 seg.2)).min?

/-- Embeds `project_ring` inside `_geometry_distance_miles` (lines 124-130):
project every `(lon, lat)` point and close the ring when needed. -/
def project_ring (proj : ℚ → ℚ → ℚ × ℚ) (ring : List (ℚ × ℚ)) : List (ℚ × ℚ) :=
  match ring.map (fun q => proj q.2 q.1) with
  | [] => []
  | p :: rest =>
    if (p :: rest).getLast? ≠ some p then (p :: rest) ++ [p] else p :: rest

/-- Embeds `polygon_distance` inside `_geometry_distance_miles` (lines
132-150): zero when the projected origin is inside the outer ring and outside
every hole, else the minimum of the per-ring minimum edge distances. -/
def polygon_distance (proj : ℚ → ℚ → ℚ × ℚ) (hypot : ℚ → ℚ → ℚ)
    (origin_lat origin_lon : ℚ) (rings : List (List (ℚ × ℚ))) : Option ℚ :=
  match rings with
  | [] => none
  | _ :: _ =>
    let projected_rings := (rings.filter (fun r => !r.isEmpty)).map (project_ring proj)
    match projected_rings with
    | [] => none
    | outer :: holes =>
      if outer.isEmpty then none
      else
        let origin_xy := proj origin_lat origin_lon
        let inside_outer := point_in_ring origin_xy outer
        let inside_hole := holes.any (fun r => point_in_ring origin_xy r)
        if inside_outer ∧ ¬inside_hole then some 0
        else ((outer :: holes).filterMap (ring_min_distance hypot origin_xy)).min?

/-- GeoJSON geometries handled by `_geometry_distance_miles`. The `Point`
constructor carries its two coordinates (the source returns `None` for a
malformed point with fewer). -/
inductive Geometry where
  | point (lon lat : ℚ)
  | polygon (rings : List (List (ℚ × ℚ)))
  | multiPolygon (polys : List (List (List (ℚ × ℚ))))

/-- Embeds `_geometry_distance_miles` (weather_service.py lines 111-163);
empty coordinates (`if not coords`) give `None`. -/
def geometry_distance_miles (proj : ℚ → ℚ → ℚ × ℚ) (hypot hav : ℚ → ℚ → ℚ)
    (origin_lat origin_lon : ℚ) : Geometry → Option ℚ
  | .point lon lat => some (hav lat lon)
  | .polygon rings =>
    if rings.isEmpty then none
    else polygon_distance proj hypot origin_lat origin_lon rings
  | .multiPolygon polys =>
    if polys.isEmpty then none
    else (polys.filterMap (polygon_distance proj hypot origin_lat origin_lon)).min?

/-- `_ring_min_distance` is the minimum of the edge distances (`none` exactly
when the ring has no edge). -/
theorem ring_min_distance_eq (hypot : ℚ → ℚ → ℚ) (p : ℚ × ℚ)
    (ring : List (ℚ × ℚ)) :
    ring_min_distance hypot p ring =
      ((ring_segments ring).map
        (fun seg => point_to_segment_distance hypot p seg.1 seg.2)).min? := by
  unfold ring_min_distance
  by_cases hl : ring.length < 2
  · rw [if_pos hl]
    have hseg : ring_segments ring = [] := by
      unfold ring_segments
      match ring, hl with
      | [], _ => rfl
      | [x], _ => rfl
      | x :: y :: t, hl => exact absurd hl (by simp)
    rw [hseg]
    rfl
  · rw [if_neg hl]

/-- `min?` distributes over append. -/
theorem rat_min?_append (l1 l2 : List ℚ) :
    (l1 ++ l2).min? =
      match l1.min?, l2.min? with
      | some a, some b => some (min a b)
      | some a, none => some a
      | none, mb => mb := by
  induction l1 with
  | nil =>
    simp only [List.nil_append]
    cases l2.min? <;> rfl
  | cons x xs ih =>
    rw [List.cons_append, List.min?_cons, List.min?_cons, ih]
    rcases xs.min? with - | a <;> rcases l2.min? with - | b <;>
      simp [min_assoc]

/-- Taking per-list minima first does not change the overall minimum. -/
theorem rat_min?_filterMap_flatten (L : List (List ℚ)) :
    (L.filterMap List.min?).min? = L.flatten.min? := by
  induction L with
  | nil => rfl
  | cons R L ih =>
    rw [List.flatten_cons, rat_min?_append]
    cases hR : R.min? with
    | none =>
      rw [List.filterMap_cons_none hR, ih]
    | some a =>
      rw [List.filterMap_cons_some hR, List.min?_cons, ih]
      cases L.flatten.min? <;> rfl

/-- The minimum over rings of the per-ring minimum edge distance is the
minimum over all edges of all rings. -/
theorem filterMap_ring_min_eq_flatten (hypot : ℚ → ℚ → ℚ) (p : ℚ × ℚ)
    (P : List (List (ℚ × ℚ))) :
    (P.filterMap (ring_min_distance hypot p)).min? =
      ((P.map ring_segments).flatten.map
        (fun seg => point_to_segment_distance hypot p seg.1 seg.2)).min? := by
  induction P with
  | nil => rfl
  | cons R P ih =>
    rw [List.filterMap_cons, List.map_cons, List.flatten_cons, List.map_append,
      rat_min?_append, ← ih, ring_min_distance_eq]
    cases hR : ((ring_segments R).map
        (fun seg => point_to_segment_distance hypot p seg.1 seg.2)).min? with
    | none => rfl
    | some a =>
      rw [List.min?_cons]
      cases (P.filterMap (ring_min_distance hypot p)).min? <;> rfl

/-- C6: for every polygon zone geometry (nonempty rings) and origin point, and
for every projection/hypotenuse kernel, `_geometry_distance_miles` is exactly
0 when the projected origin lies inside the outer ring and outside all hole
rings, and otherwise equals the minimum point-to-segment distance from the
projected origin to any ring edge. -/
theorem polygon_zone_distance (proj : ℚ → ℚ → ℚ × ℚ) (hypot hav : ℚ → ℚ → ℚ)
    (origin_lat origin_lon : ℚ) (r0 : List (ℚ × ℚ)) (rest : List (List (ℚ × ℚ)))
    (hr : ∀ r ∈ r0 :: rest, r ≠ []) :
    (point_in_ring (proj origin_lat origin_lon) (project_ring proj r0) = true ∧
       (rest.map (project_ring proj)).any
         (fun r => point_in_ring (proj origin_lat origin_lon) r) = false →
      geometry_distance_miles proj hypot hav origin_lat origin_lon
        (Geometry.polygon (r0 :: rest)) = some 0) ∧
    (¬(point_in_ring (proj origin_lat origin_lon) (project_ring proj r0) = true ∧
       (rest.map (project_ring proj)).any
         (fun r => point_in_ring (proj origin_lat origin_lon) r) = false) →
      geometry_distance_miles proj hypot hav origin_lat origin_lon
        (Geometry.polygon (r0 :: rest)) =
        ((((r0 :: rest).map (project_ring proj)).map ring_segments).flatten.map
          (fun seg => point_to_segment_distance hypot (proj origin_lat origin_lon)
            seg.1 seg.2)).min?) := by
  have hfil : List.filter (fun r => !r.isEmpty) (r0 :: rest) = r0 :: rest := by
    rw [List.filter_eq_self]
    intro a ha
    simpa [List.isEmpty_iff] using hr a ha
  have h0 : r0 ≠ [] := hr r0 (List.mem_cons_self r0 rest)
  have houter : (project_ring proj r0).isEmpty = false := by
    unfold project_ring
    cases hmap : r0.map (fun q => proj q.2 q.1) with
    | nil => exact absurd (List.map_eq_nil_iff.mp hmap) h0
    | cons p ps =>
      by_cases hlast : ((p :: ps).getLast? ≠ some p)
      · simp [hlast]
      · simp [hlast]
  have hred : geometry_distance_miles proj hypot hav origin_lat origin_lon
      (Geometry.polygon (r0 :: rest)) =
      (if point_in_ring (proj origin_lat origin_lon) (project_ring proj r0) ∧
          ¬ (rest.map (project_ring proj)).any
            (fun r => point_in_ring (proj origin_lat origin_lon) r) then
        some 0
      else
        ((project_ring proj r0 :: rest.map (project_ring proj)).filterMap
          (ring_min_distance hypot (proj origin_lat origin_lon))).min?) := by
    simp only [geometry_distance_miles, List.isEmpty_cons, Bool.false_eq_true,
      if_false, polygon_distance, hfil, List.map_cons, houter]
  constructor
  · rintro ⟨h1, h2⟩
    rw [hred, if_pos ⟨h1, by rw [h2]; exact Bool.false_ne_true⟩]
  · intro h
    rw [hred, if_neg (fun hc => h ⟨hc.1, Bool.eq_false_iff.mpr hc.2⟩),
      ← List.map_cons (project_ring proj) r0 rest,
      filterMap_ring_min_eq_flatten]

/-- Coordinate-swapping projection used in the C6 witness (projects `(lon,
lat)` to `(x, y)` unchanged). -/
def projSwap : ℚ → ℚ → ℚ × ℚ := fun lat lon => (lon, lat)

/-- A closed 4 × 4 square ring of `(lon, lat)` points. -/
def demoRing : List (ℚ × ℚ) := [(0, 0), (4, 0), (4, 4), (0, 4), (0, 0)]

/-- Witness for C6: the origin (2, 2) lies inside the square, so the distance
is exactly 0, for an arbitrary hypotenuse kernel. -/
theorem polygon_zone_distance_witness :
    geometry_distance_miles projSwap (fun x y => x * x + y * y) (fun _ _ => 0)
      2 2 (Geometry.polygon [demoRing]) = some 0 := by
  have hproj : project_ring projSwap demoRing = demoRing := by decide
  have hpir : point_in_ring (projSwap 2 2) (project_ring projSwap demoRing) = true := by
    rw [hproj]
    show point_in_ring (2, 2) demoRing = true
    norm_num [point_in_ring, demoRing, List.zip, List.zipWith, List.foldl]
  exact (polygon_zone_distance projSwap (fun x y => x * x + y * y) (fun _ _ => 0)
    2 2 demoRing [] (by decide)).1 ⟨hpir, rfl⟩

end WeatherApp
